import Mathlib

/-!
Verification of the conversation-orchestration and escalation engine of the
mhcb-agents repository, as a shallow embedding in Lean.

Python dicts with a fixed key set are embedded as structures; a key that is
present in some of the dicts a variable ranges over and absent in others is
embedded as an `Option` field (with `none` for "key absent").  Calls to the
LLM backend, the (commented-out) Mongo store and the notification stack are
embedded as oracle parameters: total functions supplied by the caller of the
embedded operation.  `datetime.utcnow()` is embedded as an explicit sequence
of clock readings (natural numbers, in seconds) passed to the operation, one
per textual call site, in execution order.
-/

namespace MHCB

/-- Analysis dict produced by `gemini_service.analyze_intent_and_emotion`
(src/services/gemini_service.py): emotional state, intent, tags, style,
crisis flag, recommended agent and urgency.  `recommended_agent := none`
embeds an absent `"recommended_agent"` key. -/
structure Analysis where
  emotional_state : String := "neutral"
  intent : String := ""
  detected_tags : List String := []
  communication_style : String := "empathetic"
  language : String := "English"
  crisis_indicators : Bool := false
  recommended_agent : Option String := none
  urgency_level : String := "low"
deriving DecidableEq, Repr

/-- `ConversationFlowService._determine_conversation_stage`
(src/services/conversation_flow.py lines 155-186), translated clause by
clause in source order.  Inputs are the values the Python reads out of
`session_context` and `analysis` (with the same `.get` defaults applied by
the caller of this embedding). -/
def determineConversationStage (turn_count : Nat) (emotional_state : String)
    (urgency_level : String) (crisis_indicators : Bool) : String :=
  if urgency_level == "crisis" || crisis_indicators then "crisis"
  else if turn_count ≤ 1 then "greeting"
  else if urgency_level == "high" then "intervention"
  else if turn_count ≤ 3 && (["anxious", "depressed", "stressed"].contains emotional_state) then
    "assessment"
  else if turn_count ≤ 8 && urgency_level == "medium" then "intervention"
  else if turn_count > 8 then "follow_up"
  else "general"

/-- The four inputs of stage classification, bundled for the rule-list view. -/
structure StageInput where
  turn_count : Nat
  emotional_state : String
  urgency_level : String
  crisis_indicators : Bool
deriving DecidableEq, Repr

/-- First-match evaluation of an ordered list of (guard, stage) rules with a
default stage, used to state the spec's claimed evaluation order. -/
def firstMatchStage : List ((StageInput → Bool) × String) → String → StageInput → String
  | [], dflt, _ => dflt
  | (c, s) :: rest, dflt, i => if c i then s else firstMatchStage rest dflt i

/-- The spec's claimed rule order for stage classification: crisis, then
greeting, then high-urgency intervention, then assessment, then
medium-urgency intervention, then follow_up, with general as the default. -/
def specStageRules : List ((StageInput → Bool) × String) :=
  [ (fun i => i.urgency_level == "crisis" || i.crisis_indicators, "crisis"),
    (fun i => i.turn_count ≤ 1, "greeting"),
    (fun i => i.urgency_level == "high", "intervention"),
    (fun i => i.turn_count ≤ 3 &&
      (["anxious", "depressed", "stressed"].contains i.emotional_state), "assessment"),
    (fun i => i.turn_count ≤ 8 && i.urgency_level == "medium", "intervention"),
    (fun i => i.turn_count > 8, "follow_up") ]

/-- Result dict of an agent's `process_message` (src/agents/*.py), one
structure for the union of keys the orchestrator reads; a key absent from a
given agent's dict is embedded by the field's default. -/
structure AgentResponse where
  response : Option String := none
  options : List String := []
  recommended_agent_out : Option String := none
  routing_confidence : Option String := none
  immediate_actions : List String := []
  technique_taught : Option String := none
  cbt_technique : Option String := none
  follow_up_needed : Bool := false
  escalation_completed : Bool := false
  collaboration_recommended : Bool := false
  resources_immediate_actions : List String := []
  intervention_type : Option String := none
deriving DecidableEq, Repr

/-- Result dict of `AgentOrchestrator.process_conversation`
(src/agents/agent_orchestrator.py); optional fields embed keys present only
on some of the return paths.  `techniques_suggested` is a scalar on the
non-collaborative path and a list on the collaborative one. -/
inductive Techniques where
  | scalar (t : Option String)
  | listed (ts : List (Option String))
deriving DecidableEq, Repr

/-- Orchestrator result dict (see `Techniques` for the techniques field). -/
structure OrchResult where
  response : Option String
  primary_agent : String
  secondary_agent : Option String := none
  collaboration_used : Bool
  crisis_intervention : Bool := false
  immediate_actions : List String := []
  techniques_suggested : Option Techniques := none
  follow_up_needed : Bool := false
  escalation_needed : Bool := false
  intervention_type : Option String := none
  error_occurred : Bool := false
deriving DecidableEq, Repr

/-- Registration order of `self.agents` in `AgentOrchestrator.__init__`
(src/agents/agent_orchestrator.py lines 18-24). -/
def agentKeys : List String :=
  ["conversation_manager", "cbt_therapist", "mindfulness_coach", "booking_agent"]

/-- `get_tags` of each registered agent (src/agents/conversation_manager.py,
cbt_therapist.py, mindfulness_coach.py, booking_agent.py). -/
def agentTags : String → List String
  | "conversation_manager" =>
      ["general", "routing", "multilingual", "adaptation", "initial_contact"]
  | "cbt_therapist" =>
      ["anxiety", "depression", "negative_thoughts", "behavioral_issues", "cbt",
       "cognitive_distortions"]
  | "mindfulness_coach" =>
      ["stress", "sleep", "focus", "lifestyle", "mindfulness", "anxiety", "panic",
       "overwhelm"]
  | "booking_agent" =>
      ["appointment", "escalation", "crisis", "emergency", "professional_referral",
       "safety"]
  | _ => []

/-- `self.agent_priority` of `AgentOrchestrator.__init__` (lines 26-33);
lower value = more general.  Keys outside the table map to 0 (never looked
up by the code). -/
def agent_priority : String → Nat
  | "conversation_manager" => 1
  | "cbt_therapist" => 2
  | "mindfulness_coach" => 2
  | "psychiatrist" => 3
  | "relationship_counselor" => 2
  | "booking_agent" => 4
  | _ => 0

/-- `len(set(tags) & set(agent_tags))` in `_get_secondary_agent`: number of
distinct tags shared with the agent's tag list (the agents' tag lists are
duplicate-free). -/
def tagScore (tags : List String) (agent : String) : Nat :=
  (tags.dedup.filter (fun t => (agentTags agent).contains t)).length

/-- The positive-scoring `(agent, score)` pairs of `_get_secondary_agent`,
in registration order: every registered agent except the primary whose tag
score is positive. -/
def scoredAgents (tags : List String) (primary : String) : List (String × Nat) :=
  (agentKeys.filter (fun a => a ≠ primary)).filterMap
    (fun a => let s := tagScore tags a; if s > 0 then some (a, s) else none)

/-- Python's `max(d, key=d.get)` over an insertion-ordered dict seeded with
`b`: a later entry replaces the current best only when strictly greater. -/
def pyMaxFold (l : List (String × Nat)) (b : String × Nat) : String × Nat :=
  l.foldl (fun q r => if r.2 > q.2 then r else q) b

/-- `AgentOrchestrator._get_secondary_agent` (lines 241-260): highest
positive tag score among the non-primary registered agents, first wins on
ties (dict iteration order = registration order); `none` when no agent
scores positive. -/
def getSecondaryAgent (tags : List String) (primary : String) : Option String :=
  match scoredAgents tags primary with
  | [] => none
  | p :: ps => some (pyMaxFold ps p).1

/-- The spec's selection rule for the secondary capability: highest score
wins, ties broken by lowest `agent_priority` value, remaining ties by
registration order (earlier entry kept). -/
def specMaxFold (l : List (String × Nat)) (b : String × Nat) : String × Nat :=
  l.foldl
    (fun q r =>
      if r.2 > q.2 ∨ (r.2 = q.2 ∧ agent_priority r.1 < agent_priority q.1) then r else q)
    b

/-- Secondary-capability choice as the spec words it (same candidate set,
spec tie-breaking). -/
def specSecondaryAgent (tags : List String) (primary : String) : Option String :=
  match scoredAgents tags primary with
  | [] => none
  | p :: ps => some (specMaxFold ps p).1

/-- Python `x or y` on two optional strings: `y` when `x` is `None` or the
empty string (falsy), else `x`. -/
def pyOrStr (x y : Option String) : Option String :=
  match x with
  | some s => if s == "" then y else some s
  | none => y

/-- `AgentOrchestrator._should_collaborate` (lines 118-135). -/
def shouldCollaborate (a : Analysis) (pr : AgentResponse) : Bool :=
  a.detected_tags.length ≥ 3 || pr.collaboration_recommended ||
    (["overwhelmed", "mixed", "complex"].contains a.emotional_state)

/-- `AgentOrchestrator._process_with_agent` (lines 91-99): unknown agent
keys fall back to the conversation manager.  `ap` is the oracle giving each
registered agent's `process_message` output on the current message and
context. -/
def processWithAgent (ap : String → AgentResponse) (agentType : String) : AgentResponse :=
  if agentKeys.contains agentType then ap agentType else ap "conversation_manager"

/-- `AgentOrchestrator._handle_crisis_situation` (lines 101-116), given the
booking agent's response dict. -/
def handleCrisisSituation (r : AgentResponse) : OrchResult :=
  { response := r.response,
    primary_agent := "booking_agent",
    collaboration_used := false,
    crisis_intervention := true,
    immediate_actions := r.resources_immediate_actions,
    follow_up_needed := true,
    escalation_needed := true,
    intervention_type := some (r.intervention_type.getD "crisis") }

/-- The non-collaborative return dict of `process_conversation`
(lines 78-85). -/
def nonCollabResult (primaryType : String) (pr : AgentResponse) : OrchResult :=
  { response := pr.response,
    primary_agent := primaryType,
    collaboration_used := false,
    techniques_suggested := some (Techniques.scalar (pyOrStr pr.technique_taught pr.cbt_technique)),
    follow_up_needed := pr.follow_up_needed,
    escalation_needed := pr.escalation_completed }

/-- `AgentOrchestrator._create_collaborative_crew` result dict
(lines 229-239); `crewOut` is the `crew.kickoff()` oracle output. -/
def collaborativeCrewResult (crewOut : String) (primaryType secondaryType : String)
    (pr sr : AgentResponse) : OrchResult :=
  { response := some crewOut,
    primary_agent := primaryType,
    secondary_agent := some secondaryType,
    collaboration_used := true,
    techniques_suggested := some (Techniques.listed
      [pyOrStr pr.technique_taught pr.cbt_technique,
       pyOrStr sr.technique_taught sr.cbt_technique]),
    follow_up_needed := true }

/-- `AgentOrchestrator._get_collaborative_response` (lines 137-178);
`crewOut := none` embeds an exception out of the crew machinery, caught at
lines 172-178 and answered with the three-key primary-only dict. -/
def getCollaborativeResponse (a : Analysis) (ap : String → AgentResponse)
    (crewOut : Option String) (primaryType : String) (pr : AgentResponse) : OrchResult :=
  match getSecondaryAgent a.detected_tags primaryType with
  | some s =>
      match crewOut with
      | some out => collaborativeCrewResult out primaryType s pr (processWithAgent ap s)
      | none =>
          { response := pr.response, primary_agent := primaryType, collaboration_used := false }
  | none =>
      { response := pr.response, primary_agent := primaryType, collaboration_used := false }

/-- `AgentOrchestrator.process_conversation` (lines 35-89): crisis override,
then primary-agent processing, then optional collaboration.  The oracles
stand for the registered agents' LLM-backed `process_message` calls and the
collaborative crew run; the outer exception fallback (lines 87-89) is
embedded by the oracles being total. -/
def processConversation (a : Analysis) (ap : String → AgentResponse)
    (crewOut : Option String) : OrchResult :=
  let primaryType := a.recommended_agent.getD "conversation_manager"
  if a.crisis_indicators || a.urgency_level == "crisis" then
    handleCrisisSituation (ap "booking_agent")
  else
    let pr := processWithAgent ap primaryType
    if shouldCollaborate a pr then
      getCollaborativeResponse a ap crewOut primaryType pr
    else
      nonCollabResult primaryType pr

/-- `a == b && leadsWith as bs`: the first list is an initial segment of the
second (character-wise), used for Python's substring test. -/
def leadsWith : List Char → List Char → Bool
  | [], _ => true
  | _ :: _, [] => false
  | a :: as, b :: bs => a == b && leadsWith as bs

/-- `charsContainsSub hay pat`: `pat` occurs contiguously inside `hay`. -/
def charsContainsSub : List Char → List Char → Bool
  | [], pat => pat.isEmpty
  | h :: t, pat => leadsWith pat (h :: t) || charsContainsSub t pat

/-- Python's `pat in s` on strings: contiguous substring occurrence. -/
def strContainsSub (s pat : String) : Bool :=
  charsContainsSub s.toList pat.toList

/-- The `simple_greetings` list of `ConversationManagerAgent.process_message`
(src/agents/conversation_manager.py line 39). -/
def simple_greetings : List String :=
  ["hi", "hello", "hey", "hii daa", "hola", "namaste", "daa"]

/-- The greeting fast-path guard at conversation_manager.py line 41, applied
to `lower_message = message.lower().strip()`: some simple greeting occurs as
a substring and the whole normalized message is at most 10 characters. -/
def simpleGreetingCheck (lowerMessage : String) : Bool :=
  (simple_greetings.any (fun g => strContainsSub lowerMessage g)) && lowerMessage.length ≤ 10

/-- The templated fast-path return dict (conversation_manager.py lines
44-50); `greetingTemplate` is the `language_service.get_greeting_templates`
oracle output. -/
def fastPathResponse (greetingTemplate : String) : AgentResponse :=
  { response := some greetingTemplate,
    options := ["What\u0027s on your mind?", "How are you feeling?", "Tell me more."],
    recommended_agent_out := some "conversation_manager",
    routing_confidence := some "high",
    immediate_actions := ["continue_conversation"] }

/-- `ConversationManagerAgent._determine_next_agent` (lines 125-149). -/
def determineNextAgent (tags : List String) (emotional_state : String) : String :=
  if emotional_state == "crisis" ||
      tags.any (fun t => ["crisis", "suicidal", "self_harm"].contains t) then
    "booking_agent"
  else if tags.any (fun t => ["severe_depression", "bipolar", "psychosis", "medication"].contains t) then
    "psychiatrist"
  else if tags.any (fun t => ["anxiety", "depression", "negative_thoughts", "panic", "phobia"].contains t) then
    "cbt_therapist"
  else if tags.any (fun t => ["stress", "sleep", "focus", "lifestyle", "mindfulness"].contains t) then
    "mindfulness_coach"
  else if tags.any (fun t => ["relationships", "family", "workplace", "communication"].contains t) then
    "relationship_counselor"
  else "conversation_manager"

/-- `ConversationManagerAgent._calculate_routing_confidence` (lines 151-158). -/
def calculateRoutingConfidence (tags : List String) : String :=
  if tags.length = 0 then "low"
  else if tags.length ≤ 2 then "medium"
  else "high"

/-- `ConversationManagerAgent._get_immediate_actions` (lines 160-176). -/
def getImmediateActions (tags : List String) (emotional_state : String) : List String :=
  let actions :=
    if emotional_state == "crisis" then ["provide_helpline", "connect_counselor", "safety_check"]
    else if ["anxious", "panic"].contains emotional_state then
      ["breathing_exercise", "grounding_technique"]
    else if emotional_state == "depressed" then
      ["validation", "hope_instillation", "small_step_planning"]
    else if tags.contains "stress" then ["stress_assessment", "immediate_relief_techniques"]
    else []
  if actions.isEmpty then ["continue_conversation"] else actions

/-- The JSON object the LLM is asked to produce on the non-fast path of
`ConversationManagerAgent.process_message`. -/
structure LlmJson where
  response_text : Option String := none
  response_options : List String := []
deriving DecidableEq, Repr

/-- `ConversationManagerAgent.process_message` (lines 29-110):
`lowerMessage` is the already lowercased and stripped message text, `ctx`
the merged context (analysis fields are the ones this method reads),
`greetingTemplate` the template oracle, and `llm` the parsed LLM JSON
(`none` embeds an LLM/parsing exception, answered by the fallback dict of
lines 103-110). -/
def convMgrProcessMessage (lowerMessage : String) (ctx : Analysis)
    (greetingTemplate : String) (llm : Option LlmJson) : AgentResponse :=
  if simpleGreetingCheck lowerMessage then fastPathResponse greetingTemplate
  else
    match llm with
    | some j =>
        { response := j.response_text,
          options := j.response_options,
          recommended_agent_out :=
            some (determineNextAgent ctx.detected_tags ctx.emotional_state),
          routing_confidence := some (calculateRoutingConfidence ctx.detected_tags),
          immediate_actions := getImmediateActions ctx.detected_tags ctx.emotional_state }
    | none =>
        { response := some greetingTemplate,
          options := ["Tell me what\u0027s on your mind.", "I\u0027m here to listen."],
          recommended_agent_out := some "conversation_manager",
          routing_confidence := some "low",
          immediate_actions := ["continue_conversation"] }

/-- The spec's "simple query" predicate, written from the spec's words for
comparison with the code's fast-path guard: intent, emotional state, low
urgency, no crisis, and recommended capability unset or general-purpose. -/
def specSimpleQuery (a : Analysis) : Bool :=
  (["greeting", "general_inquiry", "small_talk", "acknowledgement"].contains a.intent) &&
  (["neutral", "positive", "calm", "curious"].contains a.emotional_state) &&
  a.urgency_level == "low" &&
  !a.crisis_indicators &&
  (a.recommended_agent == none || a.recommended_agent == some "conversation_manager")

/-- One entry of `EscalationService.escalation_rules`
(src/services/escalation_service.py lines 15-36); durations in seconds. -/
structure EscalationRule where
  max_response_time : Nat
  notification_channels : List String
  required_actions : List String
deriving DecidableEq, Repr

/-- The `"normal"` rule entry: 3 days, email only, standard booking. -/
def normalEscalationRule : EscalationRule :=
  { max_response_time := 259200,
    notification_channels := ["email"],
    required_actions := ["standard_booking"] }

/-- `self.escalation_rules.get(level)`: the static rule table keyed by
level, `none` for unknown keys. -/
def escalationRulesLookup : String → Option EscalationRule
  | "crisis" => some { max_response_time := 300,
                       notification_channels := ["email", "sms", "push"],
                       required_actions := ["immediate_helpline", "counselor_notification",
                                            "safety_check"] }
  | "urgent" => some { max_response_time := 7200,
                       notification_channels := ["email", "push"],
                       required_actions := ["same_day_booking", "counselor_notification"] }
  | "high" => some { max_response_time := 86400,
                     notification_channels := ["email"],
                     required_actions := ["priority_booking", "counselor_notification"] }
  | "normal" => some normalEscalationRule
  | _ => none

/-- `self.escalation_rules.get(escalation_level, self.escalation_rules["normal"])`
(line 52): rule lookup with fallback to the normal rules. -/
def escalationRuleFor (level : String) : EscalationRule :=
  (escalationRulesLookup level).getD normalEscalationRule

/-- Action names `_execute_escalation_action` dispatches on (lines 105-137);
any other action name is logged and answered `False`. -/
def knownEscalationActions : List String :=
  ["immediate_helpline", "counselor_notification", "safety_check",
   "same_day_booking", "priority_booking", "standard_booking"]

/-- `_execute_escalation_action` (lines 105-137): dispatch to the per-action
helper; `exec` is the helper oracle, `none` embedding an exception inside
the helper call, caught at lines 135-137 and turned into `False`; unknown
actions are `False` without a helper call. -/
def executeEscalationAction (exec : String → Option Bool) (a : String) : Bool :=
  if knownEscalationActions.contains a then (exec a).getD false else false

/-- Channel names `_send_escalation_notifications` dispatches on
(lines 252-261); any other channel is answered `False`. -/
def knownChannels : List String := ["email", "sms", "push"]

/-- `_send_escalation_notifications` (lines 242-267): one outcome per
channel in declared order; `notify` is the per-channel sender oracle,
`none` embedding an exception, caught per channel (lines 263-265) and
recorded as `False`. -/
def sendEscalationNotifications (notify : String → Option Bool)
    (channels : List String) : List (String × Bool) :=
  channels.map (fun c => (c, if knownChannels.contains c then (notify c).getD false else false))

/-- The escalation record dict built at lines 66-77 (its `context` embedded
by the detected tags the actions read from it). -/
structure EscalationRecord where
  escalation_id : String
  user_id : String
  level : String
  triggered_at : Nat
  context_tags : List String
  message : String
  actions_taken : List (String × Bool)
  notifications_sent : List (String × Bool)
  status : String
  expected_response_by : Nat
deriving DecidableEq, Repr

/-- Everything observable about one `trigger_escalation` call: the summary
dict returned to the caller (optional fields embed keys absent from the
emergency-fallback return of lines 99-103), the record built in the body,
the urgency of the booking request synthesized by
`_emergency_escalation_fallback`, whether a critical-severity log was
emitted, and the scheduled follow-up delay. -/
structure TriggerResult where
  summary_escalation_id : String
  summary_level : String
  summary_actions_completed : Option Nat := none
  summary_notifications_sent : Option Nat := none
  summary_expected_response_by : Option Nat := none
  summary_status : String
  record : Option EscalationRecord := none
  emergencyBookingUrgency : Option String := none
  criticalLogged : Bool := false
  followUpScheduledAfter : Option Nat := none
deriving DecidableEq, Repr

/-- `EscalationService.trigger_escalation` (lines 38-103).  `t0, t1, t2` are
the three successive `datetime.utcnow()` readings at lines 47 (escalation
id), 70 (`triggered_at`) and 76 (`expected_response_by`); `exec` and
`notify` are the action/notification oracles; `unexpected := true` embeds an
unexpected exception escaping the body, caught at lines 95-103, which runs
`_emergency_escalation_fallback` (lines 306-323: critical log plus a
synthesized crisis-urgency booking request, no rule lookup) and returns the
three-key emergency dict. -/
def triggerEscalation (user_id level : String) (ctxTags : List String) (msg : String)
    (t0 t1 t2 : Nat) (exec notify : String → Option Bool) (unexpected : Bool) : TriggerResult :=
  if unexpected then
    { summary_escalation_id := "EMERGENCY_" ++ user_id,
      summary_level := "crisis",
      summary_status := "emergency_fallback_triggered",
      emergencyBookingUrgency := some "crisis",
      criticalLogged := true }
  else
    let rules := escalationRuleFor level
    let actions := rules.required_actions.map (fun a => (a, executeEscalationAction exec a))
    let notifs := sendEscalationNotifications notify rules.notification_channels
    let r : EscalationRecord :=
      { escalation_id := "ESC_" ++ user_id ++ "_" ++ toString t0,
        user_id := user_id,
        level := level,
        triggered_at := t1,
        context_tags := ctxTags,
        message := msg,
        actions_taken := actions,
        notifications_sent := notifs,
        status := "active",
        expected_response_by := t2 + rules.max_response_time }
    { summary_escalation_id := r.escalation_id,
      summary_level := level,
      summary_actions_completed := some ((actions.filter (fun p => p.2)).length),
      summary_notifications_sent := some ((notifs.filter (fun p => p.2)).length),
      summary_expected_response_by := some r.expected_response_by,
      summary_status := "escalation_triggered",
      record := some r,
      followUpScheduledAfter :=
        if level == "crisis" || level == "urgent" then some rules.max_response_time else none }

/-- Rewrites the level fields of a trigger result, used to state how an
unknown level's outcome relates to the `"normal"` outcome. -/
def withLevel (level : String) (t : TriggerResult) : TriggerResult :=
  { t with summary_level := level,
           record := t.record.map (fun r => { r with level := level }) }

/-- The per-session dict of `ConversationFlowService` (created at
conversation_flow.py lines 124-135 and mutated in place thereafter).
Fields added only by later updates are `Option`-valued (`none` = key
absent); `crisis_detected := false` likewise embeds the key being absent,
since the code only ever reads it as a routing-irrelevant flag and only
ever writes `True`. -/
structure SessionCtx where
  session_id : String
  user_id : String
  created_at : Nat := 0
  conversation_turn : Nat := 0
  conversation_stage : String := "greeting"
  active_agent : String := "conversation_manager"
  session_summary : String := ""
  techniques_used : List (Option String) := []
  assessments_completed : List String := []
  escalation_history : List String := []
  last_message : Option String := none
  last_analysis : Option Analysis := none
  crisis_detected : Bool := false
  crisis_type : Option String := none
  crisis_timestamp : Option Nat := none
  immediate_intervention_needed : Bool := false
  last_response : Option String := none
  last_agent : Option String := none
  updated_at : Option Nat := none
deriving DecidableEq, Repr

/-- The three language-dependent crisis strings returned by
`language_service.get_crisis_messages` (an oracle of the crisis flow). -/
structure CrisisMessages where
  crisis_message : String
  helpline_prompt : String
  emergency_prompt : String
deriving DecidableEq, Repr

/-- The hard-coded helpline dict of `_handle_crisis_flow`
(conversation_flow.py lines 262-265). -/
def helplineDict : List (String × String) :=
  [("Suicidal Thoughts", "+91-9152987821"), ("Mental Health Crisis", "1075")]

/-- The crisis response text assembled at conversation_flow.py lines
268-275. -/
def buildCrisisResponse (cm : CrisisMessages) : String :=
  cm.crisis_message ++ "\n\n" ++ cm.helpline_prompt ++ "\n" ++
  (helplineDict.foldl (fun acc p => acc ++ "• " ++ p.1 ++ ": " ++ p.2 ++ "\n") "") ++
  "\n" ++ cm.emergency_prompt ++
  "\n\nI\u0027m also connecting you with a counselor who can provide immediate support."

/-- The session mutation of `_handle_crisis_flow` (lines 280-287): set the
four crisis fields, touch nothing else.  `now` is the `datetime.utcnow()`
reading at line 285. -/
def handleCrisisFlowSession (s : SessionCtx) (crisisType : Option String)
    (now : Nat) : SessionCtx :=
  { s with crisis_detected := true,
           crisis_type := some (crisisType.getD "unknown"),
           crisis_timestamp := some now,
           immediate_intervention_needed := true }

/-- The `response_data` dict a stage flow hands back to
`process_user_message` (the orchestrator result plus stage-specific
additions), restricted to the keys steps 9-12 read; an oracle input of the
per-turn step. -/
structure ResponseData where
  response : String
  primary_agent : Option String := none
  escalation_needed : Bool := false
  suggested_resources : List String := []
  follow_up_needed : Bool := false
  techniques_suggested : Option Techniques := none
  next_steps : List String := []
deriving DecidableEq, Repr

/-- The technique identifiers one turn contributes: Python appends the
scalar itself (possibly `None`) and extends with a list element-wise. -/
def techList : Techniques → List (Option String)
  | Techniques.scalar o => [o]
  | Techniques.listed l => l

/-- `_update_session_memory` (lines 416-446): record last response/agent
and `updated_at`, and fold the suggested techniques into
`techniques_used`.  Python's `list(set(..))` fixes the set of elements but
not their order; the embedding keeps first occurrences.  The LRU trim of
lines 438-446 acts on the session store, not on this session's dict. -/
def updateSessionMemory (s : SessionCtx) (rd : ResponseData) (now : Nat) : SessionCtx :=
  let base := { s with last_response := some rd.response,
                       last_agent := some (rd.primary_agent.getD "conversation_manager"),
                       updated_at := some now }
  match rd.techniques_suggested with
  | none => base
  | some t => { base with techniques_used := (base.techniques_used ++ techList t).dedup }

/-- The final_response dict of `process_user_message`, one structure for the
union of the normal (lines 97-109) and crisis (lines 289-302) shapes;
optional fields embed keys present on only one of the two paths. -/
structure FlowResult where
  response : String
  session_id : String
  primary_agent : Option String := none
  agent_type : String
  detected_tags : List String
  emotional_state : Option String := none
  conversation_stage : Option String := none
  escalation_needed : Bool
  crisis_intervention : Option Bool := none
  helpline_numbers : Option (List (String × String)) := none
  suggested_resources : List String
  immediate_actions : Option (List String) := none
  follow_up_needed : Bool
  techniques_suggested : Option Techniques := none
  next_steps : List String
deriving DecidableEq, Repr

/-- The crisis-path return dict of `_handle_crisis_flow` (lines 289-302). -/
def crisisFlowResult (session_id : String) (a : Analysis) (cm : CrisisMessages) : FlowResult :=
  { response := buildCrisisResponse cm,
    session_id := session_id,
    primary_agent := some "booking_agent",
    agent_type := "booking_agent",
    detected_tags := a.detected_tags,
    escalation_needed := true,
    crisis_intervention := some true,
    helpline_numbers := some helplineDict,
    suggested_resources := [],
    immediate_actions := some ["provide_helpline", "connect_counselor", "safety_planning"],
    follow_up_needed := true,
    next_steps := ["Contact helpline immediately", "Wait for counselor connection",
                   "Create safety plan"] }

/-- The normal-path final_response dict assembled at lines 97-109. -/
def normalFlowResult (session_id : String) (a : Analysis) (stage : String)
    (rd : ResponseData) : FlowResult :=
  { response := rd.response,
    session_id := session_id,
    agent_type := rd.primary_agent.getD "conversation_manager",
    detected_tags := a.detected_tags,
    emotional_state := some a.emotional_state,
    conversation_stage := some stage,
    escalation_needed := rd.escalation_needed,
    suggested_resources := rd.suggested_resources,
    follow_up_needed := rd.follow_up_needed,
    techniques_suggested := some (rd.techniques_suggested.getD (Techniques.listed [])),
    next_steps := rd.next_steps }

/-- One turn of `ConversationFlowService.process_user_message` (lines
21-115) on an already-resolved session, after the classifier ran: `isCrisis`
and `crisisType` are the `detect_crisis_situation` oracle outputs, `rd` the
stage flow's response-data oracle output (steps 7-8 pick the stage flow, all
of which call the orchestrator and add stage extras), `now` the turn's
`datetime.utcnow()` reading.  Returns the mutated session and the response
dict.  A crisis turn returns before step 6, so the turn counter and session
memory update run only on non-crisis turns. -/
def processUserMessage (s : SessionCtx) (msg : String) (a : Analysis)
    (isCrisis : Bool) (crisisType : Option String) (cm : CrisisMessages)
    (rd : ResponseData) (now : Nat) : SessionCtx × FlowResult :=
  if isCrisis then
    (handleCrisisFlowSession s crisisType now, crisisFlowResult s.session_id a cm)
  else
    let s1 := { s with last_message := some msg,
                       last_analysis := some a,
                       conversation_turn := s.conversation_turn + 1 }
    let stage := determineConversationStage s1.conversation_turn a.emotional_state
      a.urgency_level a.crisis_indicators
    (updateSessionMemory s1 rd now, normalFlowResult s.session_id a stage rd)

/-! ## Theorems -/

/-- On a list whose priorities are non-decreasing, Python's first-maximum
fold and the spec's priority-tie-breaking fold agree, for any seed whose
priority is at most every listed priority. -/
theorem foldl_max_eq_of_sorted (l : List (String × Nat)) (b : String × Nat)
    (hb : ∀ r ∈ l, agent_priority b.1 ≤ agent_priority r.1)
    (hl : l.Pairwise (fun p q => agent_priority p.1 ≤ agent_priority q.1)) :
    pyMaxFold l b = specMaxFold l b := by
  induction l generalizing b with
  | nil => rfl
  | cons r t ih =>
    rw [List.pairwise_cons] at hl
    have hbr : agent_priority b.1 ≤ agent_priority r.1 := hb r (List.mem_cons_self r t)
    have hcond : (r.2 > b.2 ∨ (r.2 = b.2 ∧ agent_priority r.1 < agent_priority b.1)) ↔
        r.2 > b.2 := by
      constructor
      · rintro (h | ⟨_, h⟩)
        · exact h
        · exact absurd h (Nat.not_lt.mpr hbr)
      · exact Or.inl
    simp only [pyMaxFold, specMaxFold, List.foldl_cons] at *
    rw [if_congr hcond rfl rfl]
    by_cases hgt : r.2 > b.2
    · simp only [hgt, if_pos]
      exact ih r (fun x hx => hl.1 x hx) hl.2
    · simp only [hgt, if_neg, ite_false]
      exact ih b (fun x hx => hb x (List.mem_cons_of_mem r hx)) hl.2

/-- Pairwise relations survive `filterMap` when the mapping reflects the
relation. -/
theorem pairwise_filterMap_of_pairwise {α β : Type} {R : α → α → Prop} {S : β → β → Prop}
    (f : α → Option β)
    (hf : ∀ a b x y, R a b → f a = some x → f b = some y → S x y) :
    ∀ {l : List α}, l.Pairwise R → (l.filterMap f).Pairwise S := by
  intro l hl
  induction hl with
  | nil => simp
  | @cons a t hhead _ ih =>
    cases hfa : f a with
    | none => simpa [List.filterMap_cons, hfa] using ih
    | some x =>
      rw [List.filterMap_cons, hfa, List.pairwise_cons]
      refine ⟨fun y hy => ?_, ih⟩
      obtain ⟨c, hc, hfc⟩ := List.mem_filterMap.mp hy
      exact hf a c x y (hhead c hc) hfa hfc

/-- The positive-scoring candidate list of `_get_secondary_agent` has
non-decreasing priorities: the registry happens to be registered in
priority order. -/
theorem scoredAgents_priority_sorted (tags : List String) (primary : String) :
    (scoredAgents tags primary).Pairwise
      (fun p q => agent_priority p.1 ≤ agent_priority q.1) := by
  apply pairwise_filterMap_of_pairwise
    (R := fun a b => agent_priority a ≤ agent_priority b)
  · intro a b x y hR hfa hfb
    have hxa : x.1 = a := by
      by_cases h : tagScore tags a > 0 <;> simp [h] at hfa
      rw [← hfa]
    have hyb : y.1 = b := by
      by_cases h : tagScore tags b > 0 <;> simp [h] at hfb
      rw [← hfb]
    rw [hxa, hyb]
    exact hR
  · exact List.Pairwise.sublist (List.filter_sublist _) (by decide)

/-- C9: for every tag list and primary capability, the secondary capability
the orchestrator selects is exactly the one described by the spec: the
highest-scoring non-primary registered capability with positive score
`|detected_tags ∩ tag_set|`, ties broken by lowest priority value and then
registration order, and no secondary when nothing scores positive. -/
theorem secondary_agent_selection (tags : List String) (primary : String) :
    getSecondaryAgent tags primary = specSecondaryAgent tags primary := by
  unfold getSecondaryAgent specSecondaryAgent
  cases h : scoredAgents tags primary with
  | nil => rfl
  | cons p ps =>
    have hpw := scoredAgents_priority_sorted tags primary
    rw [h, List.pairwise_cons] at hpw
    show some (pyMaxFold ps p).1 = some (specMaxFold ps p).1
    rw [foldl_max_eq_of_sorted ps p hpw.1 hpw.2]

/-- C2: stage classification equals first-match evaluation of the spec's
ordered rule list — crisis, greeting, high-urgency intervention,
assessment, medium-urgency intervention, follow_up, then general — and is
a pure function of the four inputs. -/
theorem stage_order (i : StageInput) :
    determineConversationStage i.turn_count i.emotional_state i.urgency_level
        i.crisis_indicators
      = firstMatchStage specStageRules "general" i := by
  rcases i with ⟨tc, es, ul, ci⟩
  simp only [determineConversationStage, firstMatchStage, specStageRules,
    decide_eq_true_eq, Bool.and_eq_true, decide_eq_true_iff]

/-- C1: whenever `crisis_indicators` is true or `urgency_level` is
`"crisis"`, `process_conversation` returns exactly the crisis handler's
result — booking agent as primary, no collaboration — and the outcome is
independent of the other agents' responses and of the collaboration
machinery (no normal routing logic contributes to the result). -/
theorem crisis_override (a : Analysis) (ap ap2 : String → AgentResponse)
    (crewOut crewOut2 : Option String)
    (h : a.crisis_indicators = true ∨ a.urgency_level = "crisis") :
    processConversation a ap crewOut = handleCrisisSituation (ap "booking_agent") ∧
    (processConversation a ap crewOut).primary_agent = "booking_agent" ∧
    (processConversation a ap crewOut).collaboration_used = false ∧
    (ap "booking_agent" = ap2 "booking_agent" →
      processConversation a ap crewOut = processConversation a ap2 crewOut2) := by
  have hcond : (a.crisis_indicators || (a.urgency_level == "crisis")) = true := by
    rcases h with h | h
    · simp [h]
    · simp [h]
  refine ⟨?_, ?_, ?_, ?_⟩ <;>
    simp only [processConversation, hcond, if_true, handleCrisisSituation]
  intro he
  rw [he]

/-- Witness for C1 at a concrete crisis analysis. -/
theorem crisis_override_witness :
    processConversation { crisis_indicators := true }
        (fun _ => { response := some "stay safe" }) none
      = handleCrisisSituation
          ((fun _ => ({ response := some "stay safe" } : AgentResponse)) "booking_agent") ∧
    (processConversation { crisis_indicators := true }
        (fun _ => { response := some "stay safe" }) none).primary_agent = "booking_agent" ∧
    (processConversation { crisis_indicators := true }
        (fun _ => { response := some "stay safe" }) none).collaboration_used = false ∧
    ((fun _ => ({ response := some "stay safe" } : AgentResponse)) "booking_agent"
        = (fun _ => ({ response := some "stay safe" } : AgentResponse)) "booking_agent" →
      processConversation { crisis_indicators := true }
          (fun _ => { response := some "stay safe" }) none
        = processConversation { crisis_indicators := true }
            (fun _ => { response := some "stay safe" }) (some "crew")) :=
  crisis_override { crisis_indicators := true } (fun _ => { response := some "stay safe" })
    (fun _ => { response := some "stay safe" }) none (some "crew") (Or.inl rfl)

/-- C10: a crisis turn mutates only the four crisis fields of the session —
`conversation_turn`, `techniques_used` and `updated_at` are untouched — and
the turn counter is incremented exactly on non-crisis turns. -/
theorem crisis_frame_effect (s : SessionCtx) (msg : String) (a : Analysis)
    (ct : Option String) (cm : CrisisMessages) (rd : ResponseData) (now : Nat) :
    (processUserMessage s msg a true ct cm rd now).1
      = { s with crisis_detected := true,
                 crisis_type := some (ct.getD "unknown"),
                 crisis_timestamp := some now,
                 immediate_intervention_needed := true } ∧
    (processUserMessage s msg a true ct cm rd now).1.conversation_turn
      = s.conversation_turn ∧
    (processUserMessage s msg a true ct cm rd now).1.techniques_used
      = s.techniques_used ∧
    (processUserMessage s msg a true ct cm rd now).1.updated_at = s.updated_at ∧
    (processUserMessage s msg a false ct cm rd now).1.conversation_turn
      = s.conversation_turn + 1 := by
  refine ⟨rfl, rfl, rfl, rfl, ?_⟩
  rcases rd with ⟨resp, pa, en, sr, fu, ts, ns⟩
  cases ts <;> simp [processUserMessage, updateSessionMemory]

/-- Counterexample to C3 as stated: a session whose `crisis_detected` flag
is already true processes a subsequent non-crisis message through the
normal flow (general-purpose agent), not through the crisis handler. -/
theorem sticky_flag_counterexample :
    ({ session_id := "s1", user_id := "u1", crisis_detected := true } :
        SessionCtx).crisis_detected = true ∧
    (processUserMessage
        { session_id := "s1", user_id := "u1", crisis_detected := true } "hello" {}
        false none { crisis_message := "c", helpline_prompt := "h", emergency_prompt := "e" }
        { response := "ok" } 5).2.agent_type ≠ "booking_agent" ∧
    (processUserMessage
        { session_id := "s1", user_id := "u1", crisis_detected := true } "hello" {}
        false none { crisis_message := "c", helpline_prompt := "h", emergency_prompt := "e" }
        { response := "ok" } 5).2.crisis_intervention ≠ some true := by
  refine ⟨rfl, ?_, ?_⟩ <;> simp [processUserMessage, normalFlowResult]

/-- C3 (amended): the flag is sticky — after any processed turn
`crisis_detected` is the disjunction of the turn's crisis detection with
the prior flag, so once true it is never cleared — but the turn's routing
and response are unaffected by the stored flag: only the current message's
crisis detection selects the crisis handler. -/
theorem sticky_flag_amended (s : SessionCtx) (b : Bool) (msg : String) (a : Analysis)
    (isCrisis : Bool) (ct : Option String) (cm : CrisisMessages) (rd : ResponseData)
    (now : Nat) :
    (processUserMessage { s with crisis_detected := b } msg a isCrisis ct cm rd
        now).1.crisis_detected = (isCrisis || b) ∧
    (processUserMessage { s with crisis_detected := b } msg a isCrisis ct cm rd now).2
      = (processUserMessage s msg a isCrisis ct cm rd now).2 := by
  rcases rd with ⟨resp, pa, en, sr, fu, ts, ns⟩
  cases isCrisis <;> cases ts <;>
    simp [processUserMessage, handleCrisisFlowSession, updateSessionMemory,
      crisisFlowResult, normalFlowResult]

/-- Counterexample to C4 as stated: when the clock advances by one second
between the `triggered_at` reading and the `expected_response_by` reading,
a crisis trigger's deadline exceeds `triggered_at` by 301 seconds, not by
the crisis rule's 300-second `max_response_time`. -/
theorem expected_response_counterexample :
    ((triggerEscalation "u1" "crisis" [] "" 0 0 1 (fun _ => some true) (fun _ => some true)
        false).record.map (fun r => r.expected_response_by - r.triggered_at))
      = some 301 ∧
    (escalationRuleFor "crisis").max_response_time = 300 ∧
    some 301 ≠ some ((escalationRuleFor "crisis").max_response_time) := by
  refine ⟨?_, rfl, by decide⟩
  simp [triggerEscalation, escalationRuleFor, escalationRulesLookup]

/-- C4 (amended): `expected_response_by` is always the engine's second
clock reading plus the level's `max_response_time` (never an independently
chosen value), while `triggered_at` is the first reading; the claimed exact
equality `expected_response_by = triggered_at + max_response_time` holds
precisely when the two readings coincide. -/
theorem expected_response_amended (uid level : String) (tags : List String) (msg : String)
    (t0 t1 t2 : Nat) (exec notify : String → Option Bool) :
    ((triggerEscalation uid level tags msg t0 t1 t2 exec notify false).record.map
        (fun r => (r.triggered_at, r.expected_response_by)))
      = some (t1, t2 + (escalationRuleFor level).max_response_time) ∧
    (t1 = t2 →
      ((triggerEscalation uid level tags msg t0 t1 t2 exec notify false).record.map
          (fun r => r.expected_response_by))
        = some (t1 + (escalationRuleFor level).max_response_time)) := by
  refine ⟨by simp [triggerEscalation], fun he => ?_⟩
  subst he
  simp [triggerEscalation]

/-- Witness for C4 (amended) with coinciding clock readings. -/
theorem expected_response_amended_witness :
    ((triggerEscalation "u1" "crisis" [] "" 7 7 7 (fun _ => some true) (fun _ => some true)
        false).record.map (fun r => (r.triggered_at, r.expected_response_by)))
      = some (7, 7 + (escalationRuleFor "crisis").max_response_time) ∧
    (7 = 7 →
      ((triggerEscalation "u1" "crisis" [] "" 7 7 7 (fun _ => some true) (fun _ => some true)
          false).record.map (fun r => r.expected_response_by))
        = some (7 + (escalationRuleFor "crisis").max_response_time)) :=
  expected_response_amended "u1" "crisis" [] "" 7 7 7 (fun _ => some true) (fun _ => some true)

/-- Counterexample to C5 as stated: an unknown level is processed under the
normal rules but the resulting record is not the same as for `"normal"` —
its `level` field keeps the unknown string. -/
theorem unknown_level_counterexample :
    ((triggerEscalation "u1" "bogus" [] "" 0 0 0 (fun _ => some true) (fun _ => some true)
        false).record.map (fun r => r.level)) = some "bogus" ∧
    ((triggerEscalation "u1" "normal" [] "" 0 0 0 (fun _ => some true) (fun _ => some true)
        false).record.map (fun r => r.level)) = some "normal" ∧
    (triggerEscalation "u1" "bogus" [] "" 0 0 0 (fun _ => some true) (fun _ => some true)
        false).record
      ≠ (triggerEscalation "u1" "normal" [] "" 0 0 0 (fun _ => some true) (fun _ => some true)
        false).record := by
  refine ⟨by simp [triggerEscalation], by simp [triggerEscalation], ?_⟩
  intro h
  have := congrArg (fun o => o.map (fun (r : EscalationRecord) => r.level)) h
  simp [triggerEscalation] at this

/-- C5 (amended): a level outside the rule table is never rejected and is
processed exactly as `"normal"` — same actions, channels, deadline,
follow-up decision and summary — except that the record's and summary's
`level` fields keep the passed string. -/
theorem unknown_level_amended (uid level : String) (tags : List String) (msg : String)
    (t0 t1 t2 : Nat) (exec notify : String → Option Bool)
    (h : escalationRulesLookup level = none) :
    triggerEscalation uid level tags msg t0 t1 t2 exec notify false
      = withLevel level
          (triggerEscalation uid "normal" tags msg t0 t1 t2 exec notify false) := by
  have hc : (level == "crisis") = false := by
    rw [beq_eq_false_iff_ne]
    intro e; rw [e] at h; simp [escalationRulesLookup] at h
  have hu : (level == "urgent") = false := by
    rw [beq_eq_false_iff_ne]
    intro e; rw [e] at h; simp [escalationRulesLookup] at h
  have hr : escalationRuleFor level = normalEscalationRule := by
    rw [escalationRuleFor, h]; rfl
  have hn : escalationRuleFor "normal" = normalEscalationRule := rfl
  simp [triggerEscalation, withLevel, hr, hn, hc, hu]

/-- Witness for C5 (amended) at the unknown level `"bogus"`. -/
theorem unknown_level_amended_witness :
    triggerEscalation "u1" "bogus" ["stress"] "m" 1 2 3 (fun _ => some true)
        (fun _ => some false) false
      = withLevel "bogus"
          (triggerEscalation "u1" "normal" ["stress"] "m" 1 2 3 (fun _ => some true)
            (fun _ => some false) false) :=
  unknown_level_amended "u1" "bogus" ["stress"] "m" 1 2 3 (fun _ => some true)
    (fun _ => some false) rfl

/-- Counterexample to C6 as stated: the urgent rule's channels are email
and push only, so triggering `"urgent"` with the sms notifier forced to
fail yields a record whose `notifications_sent` has no `"sms"` key at all,
rather than mapping `"sms"` to false. -/
theorem notifications_counterexample :
    ((triggerEscalation "u1" "urgent" [] "" 0 0 0 (fun _ => some true)
        (fun c => if c == "sms" then some false else some true) false).record.map
      (fun r => List.lookup "sms" r.notifications_sent)) = some none ∧
    some (none : Option Bool) ≠ some (some false) := by
  refine ⟨?_, by decide⟩
  simp [triggerEscalation, escalationRuleFor, escalationRulesLookup,
    sendEscalationNotifications, List.lookup]

/-- C6 (amended): every required action of the level's rules is executed in
declared order with its boolean outcome recorded, independent of the other
actions' outcomes, and every declared channel is attempted independently;
the claimed sms scenario holds at level `"crisis"` (whose channels include
sms): with the sms notifier failing, the record maps `"sms"` to false while
`status` is `"active"` and the deadline is still computed from the rules. -/
theorem fire_and_continue_amended (uid level : String) (tags : List String) (msg : String)
    (t0 t1 t2 : Nat) (exec notify : String → Option Bool)
    (hsms : notify "sms" = some false) :
    ((triggerEscalation uid level tags msg t0 t1 t2 exec notify false).record.map
        (fun r => r.actions_taken.map Prod.fst))
      = some (escalationRuleFor level).required_actions ∧
    ((triggerEscalation uid level tags msg t0 t1 t2 exec notify false).record.map
        (fun r => r.notifications_sent.map Prod.fst))
      = some (escalationRuleFor level).notification_channels ∧
    ((triggerEscalation uid "crisis" tags msg t0 t1 t2 exec notify false).record.map
        (fun r => (List.lookup "sms" r.notifications_sent, r.status,
          r.expected_response_by)))
      = some (some false, "active",
          t2 + (escalationRuleFor "crisis").max_response_time) := by
  refine ⟨?_, ?_, ?_⟩
  · simp only [triggerEscalation, if_neg, Bool.false_eq_true, not_false_eq_true,
      Option.map_some', List.map_map, Option.some.injEq]
    exact List.map_id _
  · simp only [triggerEscalation, sendEscalationNotifications, Bool.false_eq_true,
      not_false_eq_true, if_neg, Option.map_some', List.map_map, Option.some.injEq]
    exact List.map_id _
  · simp [triggerEscalation, escalationRuleFor, escalationRulesLookup,
      sendEscalationNotifications, List.lookup, hsms]

/-- Witness for C6 (amended) with a concrete failing sms notifier. -/
theorem fire_and_continue_amended_witness :
    ((triggerEscalation "u1" "urgent" [] "m" 0 0 0 (fun _ => some true)
        (fun c => if c == "sms" then some false else some true) false).record.map
        (fun r => r.actions_taken.map Prod.fst))
      = some (escalationRuleFor "urgent").required_actions ∧
    ((triggerEscalation "u1" "urgent" [] "m" 0 0 0 (fun _ => some true)
        (fun c => if c == "sms" then some false else some true) false).record.map
        (fun r => r.notifications_sent.map Prod.fst))
      = some (escalationRuleFor "urgent").notification_channels ∧
    ((triggerEscalation "u1" "crisis" [] "m" 0 0 0 (fun _ => some true)
        (fun c => if c == "sms" then some false else some true) false).record.map
        (fun r => (List.lookup "sms" r.notifications_sent, r.status,
          r.expected_response_by)))
      = some (some false, "active",
          0 + (escalationRuleFor "crisis").max_response_time) :=
  fire_and_continue_amended "u1" "urgent" [] "m" 0 0 0 (fun _ => some true)
    (fun c => if c == "sms" then some false else some true) rfl

/-- C7: an unexpected exception anywhere in the trigger body yields the
emergency fallback — a critical-severity log, a synthesized crisis-urgency
booking request made without any rule lookup, and a best-effort return
with level `"crisis"` — identically for all inputs and oracle behaviors,
never propagating the exception. -/
theorem emergency_fallback_total (uid level : String) (tags tags2 : List String)
    (msg msg2 : String) (t0 t1 t2 u0 u1 u2 : Nat)
    (exec notify exec2 notify2 : String → Option Bool) :
    (triggerEscalation uid level tags msg t0 t1 t2 exec notify true).summary_level
      = "crisis" ∧
    (triggerEscalation uid level tags msg t0 t1 t2 exec notify true).summary_status
      = "emergency_fallback_triggered" ∧
    (triggerEscalation uid level tags msg t0 t1 t2 exec notify true).summary_escalation_id
      = "EMERGENCY_" ++ uid ∧
    (triggerEscalation uid level tags msg t0 t1 t2 exec notify
        true).emergencyBookingUrgency = some "crisis" ∧
    (triggerEscalation uid level tags msg t0 t1 t2 exec notify true).criticalLogged
      = true ∧
    triggerEscalation uid level tags msg t0 t1 t2 exec notify true
      = triggerEscalation uid level tags2 msg2 u0 u1 u2 exec2 notify2 true :=
  ⟨rfl, rfl, rfl, rfl, rfl, rfl⟩

/-- Counterexample to C8 as stated: the message `"hi"` with an anxious,
high-urgency analysis — which the claimed simplicity conditions reject —
is still given the simple treatment: templated greeting from the
general-purpose capability, no collaboration, no secondary scoring. -/
theorem simple_query_counterexample :
    specSimpleQuery
        { intent := "greeting", emotional_state := "anxious", urgency_level := "high" }
      = false ∧
    processConversation
        { intent := "greeting", emotional_state := "anxious", urgency_level := "high" }
        (fun t => if t == "conversation_manager"
          then convMgrProcessMessage "hi"
            { intent := "greeting", emotional_state := "anxious", urgency_level := "high" }
            "Hello, how can I help?" none
          else { response := none })
        none
      = { response := some "Hello, how can I help?",
          primary_agent := "conversation_manager",
          collaboration_used := false,
          techniques_suggested := some (Techniques.scalar none) } := by
  exact ⟨rfl, rfl⟩

/-- C8 (amended): the simple-query fast path is decided by the message text
alone — the lowercased stripped message contains a simple greeting and has
at most 10 characters — not by intent, emotional state, urgency or the
crisis flag; for any such message on a non-crisis turn with no recommended
capability, fewer than three detected tags and a non-complex emotional
state, routing returns only the general-purpose capability's templated
greeting with `collaboration_used = false` (in particular for a
new-session `"hi"`). -/
theorem greeting_fast_path_amended (msg : String) (a : Analysis) (tpl : String)
    (llm : Option LlmJson) (ap : String → AgentResponse) (crewOut : Option String)
    (h1 : simpleGreetingCheck msg = true)
    (h2 : ap "conversation_manager" = convMgrProcessMessage msg a tpl llm)
    (h3 : a.crisis_indicators = false)
    (h4 : a.urgency_level ≠ "crisis")
    (h5 : a.recommended_agent = none)
    (h6 : a.detected_tags.length < 3)
    (h7 : (["overwhelmed", "mixed", "complex"].contains a.emotional_state) = false) :
    processConversation a ap crewOut
      = { response := some tpl,
          primary_agent := "conversation_manager",
          collaboration_used := false,
          techniques_suggested := some (Techniques.scalar none) } := by
  have hcond : (a.crisis_indicators || (a.urgency_level == "crisis")) = false := by
    simp [h3, h4]
  have hpr : processWithAgent ap "conversation_manager" = fastPathResponse tpl := by
    rw [processWithAgent, if_pos (by decide), h2, convMgrProcessMessage.eq_def,
      if_pos h1]
  have hnc : shouldCollaborate a (fastPathResponse tpl) = false := by
    unfold shouldCollaborate fastPathResponse
    rw [h7]
    simp [Nat.not_le.mpr h6]
  simp only [processConversation, h5, Option.getD_none, hcond, Bool.false_eq_true,
    if_false, hpr, hnc]
  rfl

/-- Witness for C8 (amended): the new-session `"hi"` scenario. -/
theorem greeting_fast_path_amended_witness :
    processConversation { intent := "greeting" }
        (fun t => if t == "conversation_manager"
          then convMgrProcessMessage "hi" { intent := "greeting" } "Hi there, I\u0027m listening."
            none
          else { response := none })
        none
      = { response := some "Hi there, I\u0027m listening.",
          primary_agent := "conversation_manager",
          collaboration_used := false,
          techniques_suggested := some (Techniques.scalar none) } :=
  greeting_fast_path_amended "hi" { intent := "greeting" } "Hi there, I\u0027m listening." none
    (fun t => if t == "conversation_manager"
      then convMgrProcessMessage "hi" { intent := "greeting" } "Hi there, I\u0027m listening." none
      else { response := none })
    none (by decide) rfl rfl (by decide) rfl (by decide) (by decide)

end MHCB
